import Mathlib

/-!
# Verification of the IFA (Inflatable Fungible Assets) schema

Shallow embedding of `src/ifa.rs` from the rgb-protocol/rgb-schemas
repository: the three AluVM validation scripts (`ifa_lib_genesis`,
`ifa_lib_transfer`, `ifa_lib_inflation`), the declared schema structure
(`ifa_schema`), and the contract-data wrapper (`IfaWrapper`,
`extract_global_single_val`, `link_to`, `link_from`).

Amounts are unsigned 64-bit quantities; we model them as `Nat` together
with explicit checked arithmetic modulo the `2^64` bound, exactly as the
VM's `.uc` (unsigned-checked) arithmetic and checked state-summation
instructions behave.
-/

namespace Ifa

/-- The u64 overflow bound: arithmetic results must stay below `2^64`. -/
def U64_MOD : Nat := 2 ^ 64

/-- Checked unsigned 64-bit addition: `none` on overflow.
Semantics of the VM instruction `add.uc` on `a64` registers. -/
def checked_add (a b : Nat) : Option Nat :=
  if a + b < U64_MOD then some (a + b) else none

/-- Checked unsigned 64-bit subtraction `a - b`: `none` on underflow.
Semantics of the VM instruction `sub.uc` on `a64` registers. -/
def checked_sub (a b : Nat) : Option Nat :=
  if b ≤ a then some (a - b) else none

/-- Checked sum of a list of u64 amounts, accumulating with checked
addition: `none` as soon as an intermediate sum overflows u64.  This is
how the state-summation instructions (`sas`, `sps`, `svs`) accumulate
fungible assignment values. -/
def checkedSum (xs : List Nat) : Option Nat :=
  List.foldlM checked_add 0 xs

/-- Semantics of the `sas`/`sps` instructions: sum the fungible
assignments of a state type on one side (outputs for `sas`, inputs for
`sps`) with checked arithmetic and compare against the target register
value; fails on overflow or mismatch. -/
def sas_ok (vals : List Nat) (tgt : Nat) : Bool :=
  match checkedSum vals with
  | some s => s == tgt
  | none => false

/-- Semantics of the `svs` instruction: checked sum of the input
assignments of a state type equals the checked sum of its output
assignments; fails on overflow of either side or on mismatch. -/
def svs_ok (ins outs : List Nat) : Bool :=
  match checkedSum ins, checkedSum outs with
  | some a, some b => a == b
  | _, _ => false

/-- The conservation error codes the scripts put in `a8[0]` (errno)
before each check: `ERRNO_ISSUED_MISMATCH`, `ERRNO_INFLATION_MISMATCH`,
`ERRNO_NON_EQUAL_IN_OUT`, `ERRNO_INFLATION_EXCEEDS_ALLOWANCE`. -/
inductive ConservationError
  | IssuedMismatch
  | InflationMismatch
  | NonEqualInOut
  | InflationExceedsAllowance
deriving DecidableEq

/-- Semantics of the straight-line script assembled by `ifa_lib_genesis`:

1. errno := IssuedMismatch; load the `issuedSupply` global into
   `a64[0]`; `sas OS_ASSET` (checked sum of asset-owner outputs must
   equal `a64[0]`); `test` aborts with errno on failure.
2. errno := InflationMismatch; load the `maxSupply` global into
   `a64[1]`; `sub.uc a64[1],a64[0]` (checked `maxSupply - issuedSupply`
   into `a64[0]`); `test` aborts on underflow; `sas OS_INFLATION`
   (checked sum of inflation-allowance outputs must equal `a64[0]`);
   `test` aborts on failure.  Then `ret`. -/
def ifa_genesis_validate (issuedSupply maxSupply : Nat)
    (assetOut inflOut : List Nat) : Except ConservationError Unit :=
  if sas_ok assetOut issuedSupply then
    match checked_sub maxSupply issuedSupply with
    | none => .error .InflationMismatch
    | some delta =>
      if sas_ok inflOut delta then .ok () else .error .InflationMismatch
  else .error .IssuedMismatch

/-- Semantics of the straight-line script assembled by
`ifa_lib_transfer`:

1. errno := NonEqualInOut; `svs OS_ASSET`; `test`; `svs OS_INFLATION`;
   `test`.
2. errno := NonEqualInOut; `cnp OS_LINK,a16[0]` (count input link
   rights); `cns OS_LINK,a16[1]` (count output link rights);
   `eq.n a16[0],a16[1]`; `test`.  Then `ret`. -/
def ifa_transfer_validate (assetIn assetOut inflIn inflOut : List Nat)
    (linkIn linkOut : Nat) : Except ConservationError Unit :=
  if svs_ok assetIn assetOut then
    if svs_ok inflIn inflOut then
      if linkIn == linkOut then .ok () else .error .NonEqualInOut
    else .error .NonEqualInOut
  else .error .NonEqualInOut

/-- Semantics of the straight-line script assembled by
`ifa_lib_inflation`:

1. errno := IssuedMismatch; load the `issuedSupply` global into
   `a64[0]`; `sas OS_ASSET`; `test`; copy issued supply into `a64[1]`.
2. errno := InflationMismatch; load the `allowedInflation` metadata
   into `a64[0]`; `sas OS_INFLATION`; `test`.
3. errno := InflationExceedsAllowance; `add.uc a64[1],a64[0]` (checked
   `issuedSupply + allowedInflation` into `a64[0]`); `test` aborts on
   overflow; `sps OS_INFLATION` (checked sum of inflation-allowance
   inputs must equal `a64[0]`); `test`.  Then `ret`. -/
def ifa_inflation_validate (issuedSupply allowedInflation : Nat)
    (assetOut inflOut inflIn : List Nat) : Except ConservationError Unit :=
  if sas_ok assetOut issuedSupply then
    if sas_ok inflOut allowedInflation then
      match checked_add issuedSupply allowedInflation with
      | none => .error .InflationExceedsAllowance
      | some expected =>
        if sas_ok inflIn expected then .ok ()
        else .error .InflationExceedsAllowance
    else .error .InflationMismatch
  else .error .IssuedMismatch

/-- Metadata type ids declared by the schema.  Modelled from the spec:
the numeric `MS_*` constants live in the crate root, which is not part
of the sources; the spec describes identified, named slots, so we use a
closed inductive of identities. -/
inductive MetaSlot
  | MS_ALLOWED_INFLATION
deriving DecidableEq

/-- Global state type ids declared by the schema.  Modelled from the
spec: the numeric `GS_*` constants live in the crate root; identities
suffice. -/
inductive GlobalSlot
  | GS_NOMINAL
  | GS_TERMS
  | GS_ISSUED_SUPPLY
  | GS_MAX_SUPPLY
  | GS_REJECT_LIST_URL
  | GS_LINKED_FROM_CONTRACT
  | GS_LINKED_TO_CONTRACT
deriving DecidableEq

/-- Owned state type ids declared by the schema.  Modelled from the
spec: the numeric `OS_*` constants live in the crate root; identities
suffice. -/
inductive OwnedSlot
  | OS_ASSET
  | OS_INFLATION
  | OS_LINK
deriving DecidableEq

def ownedSlots : List OwnedSlot := [.OS_ASSET, .OS_INFLATION, .OS_LINK]

def globalSlots : List GlobalSlot :=
  [.GS_NOMINAL, .GS_TERMS, .GS_ISSUED_SUPPLY, .GS_MAX_SUPPLY,
   .GS_REJECT_LIST_URL, .GS_LINKED_FROM_CONTRACT, .GS_LINKED_TO_CONTRACT]

def metaSlots : List MetaSlot := [.MS_ALLOWED_INFLATION]

/-- The occurrence constraints on state slots (`rgbstd::schema::Occurrences`). -/
inductive Occurrences
  | Once
  | NoneOrOnce
  | NoneOrMore
  | OnceOrMore
deriving DecidableEq

/-- Modelled from the spec: the generic cardinality check the framework
applies to each declared slot before any validator runs
(`Once ⇒ count = 1`, `NoneOrOnce ⇒ count ≤ 1`, `NoneOrMore ⇒` always,
`OnceOrMore ⇒ count ≥ 1`). -/
def Occurrences.check : Occurrences → Nat → Bool
  | .Once, n => n == 1
  | .NoneOrOnce, n => n ≤ 1
  | .NoneOrMore, _ => true
  | .OnceOrMore, n => 1 ≤ n

/-- Which of the three assembled validation libraries a transition's
`validator : Option<LibSite>` points at (always entry offset 0). -/
inductive ValidatorRef
  | genesisLib
  | transferLib
  | inflationLib
deriving DecidableEq

/-- State schema of an owned slot: fungible (carries a u64 amount) or
declarative (existence only), as in `rgbstd::schema::OwnedStateSchema`. -/
inductive OwnedStateSchema
  | Fungible_Unsigned64Bit
  | Declarative
deriving DecidableEq

/-- Declaration of an owned slot (`rgbstd::schema::AssignmentDetails`). -/
structure AssignmentDetails where
  owned_state_schema : OwnedStateSchema
  name : String
  default_transition : String
deriving DecidableEq

/-- Per-transition schema (`rgbstd::schema::TransitionSchema`): declared
metadata, global occurrence constraints, input and output (assignment)
occurrence constraints, and the optional bound validator. -/
structure TransitionSchema where
  metadata : List MetaSlot
  globals : List (GlobalSlot × Occurrences)
  inputs : List (OwnedSlot × Occurrences)
  assignments : List (OwnedSlot × Occurrences)
  validator : Option ValidatorRef
deriving DecidableEq

/-- A named transition declaration (`rgbstd::TransitionDetails`). -/
structure TransitionDetails where
  transition_schema : TransitionSchema
  name : String
deriving DecidableEq

/-- Genesis schema (`rgbstd::schema::GenesisSchema`). -/
structure GenesisSchema where
  metadata : List MetaSlot
  globals : List (GlobalSlot × Occurrences)
  assignments : List (OwnedSlot × Occurrences)
  validator : Option ValidatorRef
deriving DecidableEq

/-- The transition kind ids `TS_*` declared in the crate root. -/
inductive TransitionType
  | TS_TRANSFER
  | TS_INFLATION
  | TS_BURN
  | TS_LINK
deriving DecidableEq

/-- The declared structure of the IFA schema that the claims depend on
(the `Schema { .. }` literal in `ifa_schema`): owned slot declarations,
genesis schema and the four transition declarations. -/
structure Schema where
  name : String
  owned_types : List (OwnedSlot × AssignmentDetails)
  genesis : GenesisSchema
  transitions : List (TransitionType × TransitionDetails)
  default_assignment : Option OwnedSlot
deriving DecidableEq

/-- The `TS_TRANSFER` entry of `ifa_schema`'s `transitions` map. -/
def transferTransition : TransitionDetails where
  transition_schema :=
    { metadata := []
      globals := []
      inputs := [(.OS_ASSET, .NoneOrMore), (.OS_INFLATION, .NoneOrMore),
                 (.OS_LINK, .NoneOrOnce)]
      assignments := [(.OS_ASSET, .NoneOrMore), (.OS_INFLATION, .NoneOrMore),
                      (.OS_LINK, .NoneOrOnce)]
      validator := some .transferLib }
  name := "transfer"

/-- The `TS_INFLATION` entry of `ifa_schema`'s `transitions` map. -/
def inflationTransition : TransitionDetails where
  transition_schema :=
    { metadata := [.MS_ALLOWED_INFLATION]
      globals := [(.GS_ISSUED_SUPPLY, .Once)]
      inputs := [(.OS_INFLATION, .OnceOrMore)]
      assignments := [(.OS_ASSET, .OnceOrMore), (.OS_INFLATION, .NoneOrMore)]
      validator := some .inflationLib }
  name := "inflate"

/-- The `TS_BURN` entry of `ifa_schema`'s `transitions` map: no
metadata, no globals, `NoneOrMore`/`NoneOrOnce` inputs, **no** output
assignments and **no** validator. -/
def burnTransition : TransitionDetails where
  transition_schema :=
    { metadata := []
      globals := []
      inputs := [(.OS_ASSET, .NoneOrMore), (.OS_INFLATION, .NoneOrMore),
                 (.OS_LINK, .NoneOrOnce)]
      assignments := []
      validator := none }
  name := "burn"

/-- The `TS_LINK` entry of `ifa_schema`'s `transitions` map: exactly one
`linkedToContract` global, exactly one `linkRight` input, **no** output
assignments and **no** validator. -/
def linkTransition : TransitionDetails where
  transition_schema :=
    { metadata := []
      globals := [(.GS_LINKED_TO_CONTRACT, .Once)]
      inputs := [(.OS_LINK, .Once)]
      assignments := []
      validator := none }
  name := "link"

/-- The IFA schema literal built by `ifa_schema()`. -/
def ifa_schema : Schema where
  name := "InflatableFungibleAsset"
  owned_types :=
    [(.OS_ASSET, { owned_state_schema := .Fungible_Unsigned64Bit,
                   name := "assetOwner", default_transition := "transfer" }),
     (.OS_INFLATION, { owned_state_schema := .Fungible_Unsigned64Bit,
                       name := "inflationAllowance",
                       default_transition := "transfer" }),
     (.OS_LINK, { owned_state_schema := .Declarative,
                  name := "linkRight", default_transition := "transfer" })]
  genesis :=
    { metadata := []
      globals := [(.GS_NOMINAL, .Once), (.GS_TERMS, .Once),
                  (.GS_ISSUED_SUPPLY, .Once), (.GS_MAX_SUPPLY, .Once),
                  (.GS_REJECT_LIST_URL, .NoneOrOnce),
                  (.GS_LINKED_FROM_CONTRACT, .NoneOrOnce)]
      assignments := [(.OS_ASSET, .NoneOrMore), (.OS_INFLATION, .NoneOrMore),
                      (.OS_LINK, .NoneOrOnce)]
      validator := some .genesisLib }
  transitions :=
    [(.TS_TRANSFER, transferTransition), (.TS_INFLATION, inflationTransition),
     (.TS_BURN, burnTransition), (.TS_LINK, linkTransition)]
  default_assignment := some .OS_ASSET

/-- The materialized data of one transition instance, as the external
state accessor supplies it to the framework: occurrence counts for
metadata and globals, the global/metadata amount values the scripts
load, and per-slot fungible assignment values and declarative-right
counts on the input and output sides. -/
structure TransitionData where
  metaCount : MetaSlot → Nat
  globCount : GlobalSlot → Nat
  issuedSupply : Nat
  maxSupply : Nat
  allowedInflation : Nat
  assetIn : List Nat
  inflIn : List Nat
  linkIn : Nat
  assetOut : List Nat
  inflOut : List Nat
  linkOut : Nat

/-- Number of input assignments of each owned slot in a transition. -/
def TransitionData.inCount (d : TransitionData) : OwnedSlot → Nat
  | .OS_ASSET => d.assetIn.length
  | .OS_INFLATION => d.inflIn.length
  | .OS_LINK => d.linkIn

/-- Number of output assignments of each owned slot in a transition. -/
def TransitionData.outCount (d : TransitionData) : OwnedSlot → Nat
  | .OS_ASSET => d.assetOut.length
  | .OS_INFLATION => d.inflOut.length
  | .OS_LINK => d.linkOut

/-- The occurrence constraint a schema role declares for a slot, if any. -/
def findOcc {α : Type} [DecidableEq α] (cs : List (α × Occurrences)) (s : α) :
    Option Occurrences :=
  (cs.find? fun p => p.1 = s).map Prod.snd

/-- Modelled from the spec: one slot's cardinality check in a role — a
declared slot's count must satisfy its constraint, an undeclared slot
must not appear at all. -/
def roleOk {α : Type} [DecidableEq α] (cs : List (α × Occurrences))
    (count : α → Nat) (slots : List α) : Bool :=
  slots.all fun s =>
    match findOcc cs s with
    | some c => c.check (count s)
    | none => count s == 0

/-- Modelled from the spec: the structural (occurrence) stage the
framework runs before any validator — every metadata, global, input and
output slot must satisfy its declared cardinality. -/
def structuralOk (ts : TransitionSchema) (d : TransitionData) : Bool :=
  (metaSlots.all fun m =>
    if m ∈ ts.metadata then d.metaCount m == 1 else d.metaCount m == 0) &&
  roleOk ts.globals d.globCount globalSlots &&
  roleOk ts.inputs d.inCount ownedSlots &&
  roleOk ts.assignments d.outCount ownedSlots

/-- Dispatch of a bound validation library on the transition's data. -/
def runValidator : ValidatorRef → TransitionData → Except ConservationError Unit
  | .genesisLib, d =>
    ifa_genesis_validate d.issuedSupply d.maxSupply d.assetOut d.inflOut
  | .transferLib, d =>
    ifa_transfer_validate d.assetIn d.assetOut d.inflIn d.inflOut d.linkIn d.linkOut
  | .inflationLib, d =>
    ifa_inflation_validate d.issuedSupply d.allowedInflation d.assetOut
      d.inflOut d.inflIn

/-- Outcome of evaluating one transition: structural (occurrence)
failure, conservation failure from the bound validator, or acceptance. -/
inductive TxError
  | Structural
  | Conservation (e : ConservationError)
deriving DecidableEq

/-- Modelled from the spec: the framework's control flow for one
transition — occurrence constraints first; if they hold, the bound
validator (when present) decides; a transition with no validator is
accepted as soon as the occurrence constraints hold. -/
def runTransition (t : TransitionDetails) (d : TransitionData) :
    Except TxError Unit :=
  if structuralOk t.transition_schema d then
    match t.transition_schema.validator with
    | none => .ok ()
    | some v =>
      match runValidator v d with
      | .ok () => .ok ()
      | .error e => .error (.Conservation e)
  else .error .Structural

/-- Link-extraction failures (`rgbstd::contract::LinkError`), the
variant `extract_global_single_val` can produce. -/
inductive LinkError
  | MultipleValues
deriving DecidableEq

/-- The slice of `ContractData` the wrapper code reads: the id of the
contract's schema and the values of the two link globals (contract ids
modelled as numbers). -/
structure ContractData where
  schemaId : List Nat
  linkedToContract : List Nat
  linkedFromContract : List Nat
deriving DecidableEq

/-- The 32 bytes of the `IFA_SCHEMA_ID` constant. -/
def IFA_SCHEMA_ID : List Nat :=
  [0xa7, 0xa1, 0xfe, 0xc2, 0xd0, 0xe0, 0x7a, 0x2f,
   0x47, 0x1d, 0x45, 0x4b, 0x8c, 0xa5, 0xb4, 0xb4,
   0xd7, 0x47, 0x1c, 0x52, 0xe1, 0x7c, 0x7c, 0x6b,
   0x9f, 0xd4, 0x17, 0xf9, 0x04, 0x14, 0x13, 0xbf]

/-- The newtype wrapper `IfaWrapper(ContractData<S>)`. -/
structure IfaWrapper where
  data : ContractData
deriving DecidableEq

/-- `SchemaWrapper::with` for `IfaWrapper`: panics (`none`) when the
supplied data's schema id differs from `IFA_SCHEMA_ID`, otherwise wraps
the data unchanged. -/
def IfaWrapper.with (data : ContractData) : Option IfaWrapper :=
  if data.schemaId ≠ IFA_SCHEMA_ID then none else some ⟨data⟩

/-- `extract_global_single_val`: first `next()` returning nothing gives
`Ok(None)`; a second value gives `Err(MultipleValues)`; otherwise the
single value is returned. -/
def extract_global_single_val (global : List Nat) :
    Except LinkError (Option Nat) :=
  match global with
  | [] => .ok none
  | [v] => .ok (some v)
  | _ :: _ :: _ => .error .MultipleValues

/-- `LinkableSchemaWrapper::link_to` for `IfaWrapper`. -/
def IfaWrapper.link_to (w : IfaWrapper) : Except LinkError (Option Nat) :=
  extract_global_single_val w.data.linkedToContract

/-- `LinkableSchemaWrapper::link_from` for `IfaWrapper`. -/
def IfaWrapper.link_from (w : IfaWrapper) : Except LinkError (Option Nat) :=
  extract_global_single_val w.data.linkedFromContract

theorem sas_ok_iff (vals : List Nat) (tgt : Nat) :
    sas_ok vals tgt = true ↔ checkedSum vals = some tgt := by
  unfold sas_ok
  cases h : checkedSum vals with
  | none => simp
  | some s => simp [beq_iff_eq]

theorem svs_ok_iff (ins outs : List Nat) :
    svs_ok ins outs = true ↔
      ∃ s, checkedSum ins = some s ∧ checkedSum outs = some s := by
  unfold svs_ok
  cases hi : checkedSum ins with
  | none => simp
  | some a =>
    cases ho : checkedSum outs with
    | none => simp
    | some b =>
      simp only [beq_iff_eq, Option.some.injEq]
      constructor
      · rintro rfl; exact ⟨a, rfl, rfl⟩
      · rintro ⟨s, rfl, h⟩; exact h.symm

theorem checked_add_of_lt {a b : Nat} (h : a + b < U64_MOD) :
    checked_add a b = some (a + b) := by
  unfold checked_add; rw [if_pos h]

theorem checked_add_of_ge {a b : Nat} (h : U64_MOD ≤ a + b) :
    checked_add a b = none := by
  unfold checked_add; rw [if_neg (by omega)]

theorem checked_sub_of_le {a b : Nat} (h : b ≤ a) :
    checked_sub a b = some (a - b) := by
  unfold checked_sub; rw [if_pos h]

theorem checked_sub_of_lt {a b : Nat} (h : a < b) :
    checked_sub a b = none := by
  unfold checked_sub; rw [if_neg (by omega)]

/-- C1: for every pair of u64 amounts `a ≤ b`, a Genesis transition
declaring `issuedSupply = a` and `maxSupply = b`, whose asset-owner
fungible outputs sum (without overflow) to `a` and whose
inflation-allowance fungible outputs sum (without overflow) to `b - a`,
is accepted by the genesis validator. -/
theorem genesis_accepts_balanced (a b : Nat) (assetOut inflOut : List Nat)
    (hab : a ≤ b) (_hb : b < U64_MOD)
    (hAsset : checkedSum assetOut = some a)
    (hInfl : checkedSum inflOut = some (b - a)) :
    ifa_genesis_validate a b assetOut inflOut = .ok () := by
  have h1 : sas_ok assetOut a = true := (sas_ok_iff _ _).mpr hAsset
  have h2 : sas_ok inflOut (b - a) = true := (sas_ok_iff _ _).mpr hInfl
  simp [ifa_genesis_validate, h1, h2, checked_sub_of_le hab]

/-- Witness for C1 at `a = 3`, `b = 10`, asset outputs `[1, 2]`,
inflation outputs `[4, 3]`. -/
theorem genesis_accepts_balanced_witness :
    ifa_genesis_validate 3 10 [1, 2] [4, 3] = .ok () :=
  genesis_accepts_balanced 3 10 [1, 2] [4, 3] (by decide) (by decide)
    (by decide) (by decide)

/-- Characterization of the transfer script as a single conditional. -/
theorem ifa_transfer_validate_eq (assetIn assetOut inflIn inflOut : List Nat)
    (linkIn linkOut : Nat) :
    ifa_transfer_validate assetIn assetOut inflIn inflOut linkIn linkOut =
      if svs_ok assetIn assetOut && svs_ok inflIn inflOut &&
          (linkIn == linkOut) then .ok ()
      else .error .NonEqualInOut := by
  unfold ifa_transfer_validate
  cases svs_ok assetIn assetOut <;> cases svs_ok inflIn inflOut <;>
    cases h : linkIn == linkOut <;> simp [h]

/-- C2: the transfer validator accepts iff the asset-owner input and
output checked sums agree, the inflation-allowance input and output
checked sums agree, and input and output link-right counts agree; every
rejection (per-slot mismatch or overflow) carries `NonEqualInOut`. -/
theorem transfer_accept_iff (assetIn assetOut inflIn inflOut : List Nat)
    (linkIn linkOut : Nat) :
    (ifa_transfer_validate assetIn assetOut inflIn inflOut linkIn linkOut =
        .ok () ↔
      (∃ s, checkedSum assetIn = some s ∧ checkedSum assetOut = some s) ∧
      (∃ s, checkedSum inflIn = some s ∧ checkedSum inflOut = some s) ∧
      linkIn = linkOut) ∧
    ∀ e, ifa_transfer_validate assetIn assetOut inflIn inflOut linkIn linkOut =
        .error e → e = ConservationError.NonEqualInOut := by
  rw [ifa_transfer_validate_eq]
  by_cases h : (svs_ok assetIn assetOut && svs_ok inflIn inflOut &&
      (linkIn == linkOut)) = true
  · rw [if_pos h]
    simp only [Bool.and_eq_true, svs_ok_iff, beq_iff_eq] at h
    obtain ⟨⟨hA, hI⟩, hL⟩ := h
    exact ⟨by simp [hA, hI, hL], fun e he => by cases he⟩
  · rw [if_neg h]
    constructor
    · simp only [Bool.and_eq_true, svs_ok_iff, beq_iff_eq] at h
      constructor
      · intro he; cases he
      · rintro ⟨hA, hI, hL⟩
        exact absurd ⟨⟨hA, hI⟩, hL⟩ h
    · intro e he
      cases he
      rfl

/-- Witness for C2 at asset inputs `[5]`, outputs `[2, 3]`, empty
inflation slots and matching link counts. -/
theorem transfer_accept_iff_witness :
    ifa_transfer_validate [5] [2, 3] [] [] 1 1 = .ok () :=
  (transfer_accept_iff [5] [2, 3] [] [] 1 1).1.mpr
    ⟨⟨5, by decide, by decide⟩, ⟨0, by decide, by decide⟩, rfl⟩

/-- C3: for an Inflation transition whose asset-owner outputs sum to the
declared `issuedSupply = X` and whose inflation-allowance outputs sum to
the `allowedInflation = Y` metadata: when `X + Y` fits in u64 and the
inflation-allowance inputs sum to `X + Y` the validator accepts; when
the input sum differs from `X + Y` it rejects with
`InflationExceedsAllowance`; and when `X + Y` overflows u64 it rejects
with `InflationExceedsAllowance`. -/
theorem inflation_validator_cases (X Y : Nat)
    (assetOut inflOut inflIn : List Nat)
    (hAsset : checkedSum assetOut = some X)
    (hInfl : checkedSum inflOut = some Y) :
    (X + Y < U64_MOD → checkedSum inflIn = some (X + Y) →
      ifa_inflation_validate X Y assetOut inflOut inflIn = .ok ()) ∧
    (X + Y < U64_MOD → checkedSum inflIn ≠ some (X + Y) →
      ifa_inflation_validate X Y assetOut inflOut inflIn =
        .error .InflationExceedsAllowance) ∧
    (U64_MOD ≤ X + Y →
      ifa_inflation_validate X Y assetOut inflOut inflIn =
        .error .InflationExceedsAllowance) := by
  have h1 : sas_ok assetOut X = true := (sas_ok_iff _ _).mpr hAsset
  have h2 : sas_ok inflOut Y = true := (sas_ok_iff _ _).mpr hInfl
  refine ⟨?_, ?_, ?_⟩
  · intro hlt hin
    have h3 : sas_ok inflIn (X + Y) = true := (sas_ok_iff _ _).mpr hin
    simp [ifa_inflation_validate, h1, h2, checked_add_of_lt hlt, h3]
  · intro hlt hne
    have h3 : sas_ok inflIn (X + Y) = false := by
      cases h : sas_ok inflIn (X + Y)
      · rfl
      · exact absurd ((sas_ok_iff _ _).mp h) hne
    simp [ifa_inflation_validate, h1, h2, checked_add_of_lt hlt, h3]
  · intro hge
    simp [ifa_inflation_validate, h1, h2, checked_add_of_ge hge]

/-- Witness for C3 at `X = 10`, `Y = 5`, outputs `[10]` and `[5]`,
inflation inputs `[15]`. -/
theorem inflation_validator_cases_witness :
    ifa_inflation_validate 10 5 [10] [5] [15] = .ok () :=
  (inflation_validator_cases 10 5 [10] [5] [15] (by decide) (by decide)).1
    (by decide) (by decide)

/-- C4 counterexample: at `issuedSupply = 1`, `maxSupply = 0`, empty
asset-owner and inflation-allowance outputs, the genesis validator
rejects with `IssuedMismatch` (the issued-supply check runs first), not
with `InflationMismatch` as the claim states for all assignment
values. -/
theorem genesis_max_lt_issued_counterexample :
    ifa_genesis_validate 1 0 [] [] = .error .IssuedMismatch ∧
    ifa_genesis_validate 1 0 [] [] ≠ .error .InflationMismatch := by
  constructor
  · rfl
  · intro h
    have h2 : ConservationError.IssuedMismatch =
        ConservationError.InflationMismatch := Except.error.inj h
    cases h2

/-- C4 amended: every Genesis transition whose declared `maxSupply` is
strictly below the declared `issuedSupply` and whose asset-owner outputs
sum (checked) to the declared `issuedSupply` is rejected with
`InflationMismatch`, regardless of the inflation-allowance outputs. -/
theorem genesis_max_lt_issued_rejects (issuedSupply maxSupply : Nat)
    (assetOut inflOut : List Nat)
    (hAsset : checkedSum assetOut = some issuedSupply)
    (hlt : maxSupply < issuedSupply) :
    ifa_genesis_validate issuedSupply maxSupply assetOut inflOut =
      .error .InflationMismatch := by
  have h1 : sas_ok assetOut issuedSupply = true := (sas_ok_iff _ _).mpr hAsset
  simp [ifa_genesis_validate, h1, checked_sub_of_lt hlt]

/-- Witness for the amended C4 at `issuedSupply = 1`, `maxSupply = 0`,
asset outputs `[1]`. -/
theorem genesis_max_lt_issued_rejects_witness :
    ifa_genesis_validate 1 0 [1] [] = .error .InflationMismatch :=
  genesis_max_lt_issued_rejects 1 0 [1] [] (by decide) (by decide)

theorem sas_ok_none {vals : List Nat} (tgt : Nat)
    (h : checkedSum vals = none) : sas_ok vals tgt = false := by
  unfold sas_ok; rw [h]

theorem svs_ok_none_left {ins : List Nat} (outs : List Nat)
    (h : checkedSum ins = none) : svs_ok ins outs = false := by
  unfold svs_ok; rw [h]

theorem svs_ok_none_right (ins : List Nat) {outs : List Nat}
    (h : checkedSum outs = none) : svs_ok ins outs = false := by
  unfold svs_ok; rw [h]
  cases checkedSum ins <;> rfl

/-- C5: every Amount operation in the three validators is checked, and
a failed operation rejects with the errno set before it.  The nine
operation sites, in script order:

genesis — (1) overflow summing the asset-owner outputs rejects with
`IssuedMismatch`; (2) the `sub.uc` underflow (`maxSupply <
issuedSupply`, asset check passed) rejects with `InflationMismatch`;
(3) overflow summing the inflation-allowance outputs (asset check and
`sub.uc` passed) rejects with `InflationMismatch`;

transfer — overflow summing (4) the asset-owner inputs, (5) the
asset-owner outputs, (6) the inflation-allowance inputs or (7) the
inflation-allowance outputs rejects with `NonEqualInOut`;

inflation — (8) overflow summing the asset-owner outputs rejects with
`IssuedMismatch`; (9) overflow summing the inflation-allowance outputs
(asset check passed) rejects with `InflationMismatch`; (10) the
`add.uc` overflow (`U64_MOD ≤ issuedSupply + allowedInflation`, both
output checks passed) rejects with `InflationExceedsAllowance`;
(11) overflow summing the inflation-allowance inputs (all earlier
checks passed) rejects with `InflationExceedsAllowance`. -/
theorem checked_arithmetic_rejections :
    (∀ issuedSupply maxSupply : Nat, ∀ assetOut inflOut : List Nat,
      checkedSum assetOut = none →
      ifa_genesis_validate issuedSupply maxSupply assetOut inflOut =
        .error .IssuedMismatch) ∧
    (∀ issuedSupply maxSupply : Nat, ∀ assetOut inflOut : List Nat,
      checkedSum assetOut = some issuedSupply → maxSupply < issuedSupply →
      ifa_genesis_validate issuedSupply maxSupply assetOut inflOut =
        .error .InflationMismatch) ∧
    (∀ issuedSupply maxSupply : Nat, ∀ assetOut inflOut : List Nat,
      checkedSum assetOut = some issuedSupply → issuedSupply ≤ maxSupply →
      checkedSum inflOut = none →
      ifa_genesis_validate issuedSupply maxSupply assetOut inflOut =
        .error .InflationMismatch) ∧
    (∀ assetIn assetOut inflIn inflOut : List Nat, ∀ linkIn linkOut : Nat,
      checkedSum assetIn = none →
      ifa_transfer_validate assetIn assetOut inflIn inflOut linkIn linkOut =
        .error .NonEqualInOut) ∧
    (∀ assetIn assetOut inflIn inflOut : List Nat, ∀ linkIn linkOut : Nat,
      checkedSum assetOut = none →
      ifa_transfer_validate assetIn assetOut inflIn inflOut linkIn linkOut =
        .error .NonEqualInOut) ∧
    (∀ assetIn assetOut inflIn inflOut : List Nat, ∀ linkIn linkOut : Nat,
      checkedSum inflIn = none →
      ifa_transfer_validate assetIn assetOut inflIn inflOut linkIn linkOut =
        .error .NonEqualInOut) ∧
    (∀ assetIn assetOut inflIn inflOut : List Nat, ∀ linkIn linkOut : Nat,
      checkedSum inflOut = none →
      ifa_transfer_validate assetIn assetOut inflIn inflOut linkIn linkOut =
        .error .NonEqualInOut) ∧
    (∀ issuedSupply allowedInflation : Nat,
      ∀ assetOut inflOut inflIn : List Nat,
      checkedSum assetOut = none →
      ifa_inflation_validate issuedSupply allowedInflation assetOut inflOut
        inflIn = .error .IssuedMismatch) ∧
    (∀ issuedSupply allowedInflation : Nat,
      ∀ assetOut inflOut inflIn : List Nat,
      checkedSum assetOut = some issuedSupply →
      checkedSum inflOut = none →
      ifa_inflation_validate issuedSupply allowedInflation assetOut inflOut
        inflIn = .error .InflationMismatch) ∧
    (∀ issuedSupply allowedInflation : Nat,
      ∀ assetOut inflOut inflIn : List Nat,
      checkedSum assetOut = some issuedSupply →
      checkedSum inflOut = some allowedInflation →
      U64_MOD ≤ issuedSupply + allowedInflation →
      ifa_inflation_validate issuedSupply allowedInflation assetOut inflOut
        inflIn = .error .InflationExceedsAllowance) ∧
    (∀ issuedSupply allowedInflation : Nat,
      ∀ assetOut inflOut inflIn : List Nat,
      checkedSum assetOut = some issuedSupply →
      checkedSum inflOut = some allowedInflation →
      issuedSupply + allowedInflation < U64_MOD →
      checkedSum inflIn = none →
      ifa_inflation_validate issuedSupply allowedInflation assetOut inflOut
        inflIn = .error .InflationExceedsAllowance) := by
  refine ⟨?_, ?_, ?_, ?_, ?_, ?_, ?_, ?_, ?_, ?_, ?_⟩
  · intro issuedSupply maxSupply assetOut inflOut hnone
    simp [ifa_genesis_validate, sas_ok_none issuedSupply hnone]
  · intro issuedSupply maxSupply assetOut inflOut hAsset hlt
    have h1 : sas_ok assetOut issuedSupply = true := (sas_ok_iff _ _).mpr hAsset
    simp [ifa_genesis_validate, h1, checked_sub_of_lt hlt]
  · intro issuedSupply maxSupply assetOut inflOut hAsset hle hnone
    have h1 : sas_ok assetOut issuedSupply = true := (sas_ok_iff _ _).mpr hAsset
    simp [ifa_genesis_validate, h1, checked_sub_of_le hle,
          sas_ok_none (maxSupply - issuedSupply) hnone]
  · intro assetIn assetOut inflIn inflOut linkIn linkOut hnone
    simp [ifa_transfer_validate, svs_ok_none_left assetOut hnone]
  · intro assetIn assetOut inflIn inflOut linkIn linkOut hnone
    simp [ifa_transfer_validate, svs_ok_none_right assetIn hnone]
  · intro assetIn assetOut inflIn inflOut linkIn linkOut hnone
    have h2 : svs_ok inflIn inflOut = false := svs_ok_none_left inflOut hnone
    unfold ifa_transfer_validate
    cases svs_ok assetIn assetOut
    · rfl
    · rw [h2]; rfl
  · intro assetIn assetOut inflIn inflOut linkIn linkOut hnone
    have h2 : svs_ok inflIn inflOut = false := svs_ok_none_right inflIn hnone
    unfold ifa_transfer_validate
    cases svs_ok assetIn assetOut
    · rfl
    · rw [h2]; rfl
  · intro issuedSupply allowedInflation assetOut inflOut inflIn hnone
    simp [ifa_inflation_validate, sas_ok_none issuedSupply hnone]
  · intro issuedSupply allowedInflation assetOut inflOut inflIn hAsset hnone
    have h1 : sas_ok assetOut issuedSupply = true := (sas_ok_iff _ _).mpr hAsset
    simp [ifa_inflation_validate, h1, sas_ok_none allowedInflation hnone]
  · intro issuedSupply allowedInflation assetOut inflOut inflIn hAsset hInfl hge
    have h1 : sas_ok assetOut issuedSupply = true := (sas_ok_iff _ _).mpr hAsset
    have h2 : sas_ok inflOut allowedInflation = true := (sas_ok_iff _ _).mpr hInfl
    simp [ifa_inflation_validate, h1, h2, checked_add_of_ge hge]
  · intro issuedSupply allowedInflation assetOut inflOut inflIn hAsset hInfl
      hlt hnone
    have h1 : sas_ok assetOut issuedSupply = true := (sas_ok_iff _ _).mpr hAsset
    have h2 : sas_ok inflOut allowedInflation = true := (sas_ok_iff _ _).mpr hInfl
    simp [ifa_inflation_validate, h1, h2, checked_add_of_lt hlt,
          sas_ok_none (issuedSupply + allowedInflation) hnone]

/-- Witness for C5, exercising one concrete overflow or underflow per
validator and operation kind: the genesis `sub.uc` underflow at
`issuedSupply = 2`, `maxSupply = 1`; the genesis inflation-output sum
overflow at outputs `[2^63, 2^63]`; a transfer asset-output sum
overflow; the inflation `add.uc` overflow at `2^63 + 2^63`; and an
inflation-output sum overflow of the inflation validator. -/
theorem checked_arithmetic_rejections_witness :
    ifa_genesis_validate 2 1 [2] [] = .error .InflationMismatch ∧
    ifa_genesis_validate 2 5 [2] [2 ^ 63, 2 ^ 63] =
      .error .InflationMismatch ∧
    ifa_transfer_validate [] [2 ^ 63, 2 ^ 63] [] [] 0 0 =
      .error .NonEqualInOut ∧
    ifa_inflation_validate (2 ^ 63) (2 ^ 63) [2 ^ 63] [2 ^ 63] [] =
      .error .InflationExceedsAllowance ∧
    ifa_inflation_validate 3 0 [3] [2 ^ 63, 2 ^ 63] [] =
      .error .InflationMismatch :=
  ⟨checked_arithmetic_rejections.2.1 2 1 [2] [] (by decide) (by decide),
   checked_arithmetic_rejections.2.2.1 2 5 [2] [2 ^ 63, 2 ^ 63]
     (by decide) (by decide) (by decide),
   checked_arithmetic_rejections.2.2.2.2.1 [] [2 ^ 63, 2 ^ 63] [] [] 0 0
     (by decide),
   checked_arithmetic_rejections.2.2.2.2.2.2.2.2.2.1 (2 ^ 63) (2 ^ 63)
     [2 ^ 63] [2 ^ 63] [] (by decide) (by decide) (by decide),
   checked_arithmetic_rejections.2.2.2.2.2.2.2.2.1 3 0 [3]
     [2 ^ 63, 2 ^ 63] [] (by decide) (by decide)⟩

/-- C6: neither Burn nor Link binds a validator, and for both, any
transition data satisfying the declared occurrence constraints is
accepted with no sum- or count-preservation check applied. -/
theorem burn_link_no_validator :
    burnTransition.transition_schema.validator = none ∧
    linkTransition.transition_schema.validator = none ∧
    (∀ d, structuralOk burnTransition.transition_schema d = true →
      runTransition burnTransition d = .ok ()) ∧
    (∀ d, structuralOk linkTransition.transition_schema d = true →
      runTransition linkTransition d = .ok ()) := by
  refine ⟨rfl, rfl, ?_, ?_⟩ <;>
    · intro d h
      unfold runTransition
      rw [if_pos h]
      rfl

/-- Witness for C6: a Burn transition consuming the asset amount `7`
with no outputs at all is accepted. -/
theorem burn_link_no_validator_witness :
    runTransition burnTransition
      { metaCount := fun _ => 0, globCount := fun _ => 0,
        issuedSupply := 0, maxSupply := 0, allowedInflation := 0,
        assetIn := [7], inflIn := [], linkIn := 0,
        assetOut := [], inflOut := [], linkOut := 0 } = .ok () :=
  burn_link_no_validator.2.2.1 _ (by decide)

/-- The structural stage of a Link transition, spelled out per slot. -/
theorem structuralOk_link_iff (d : TransitionData) :
    structuralOk linkTransition.transition_schema d = true ↔
      (d.metaCount .MS_ALLOWED_INFLATION = 0 ∧
       d.globCount .GS_NOMINAL = 0 ∧ d.globCount .GS_TERMS = 0 ∧
       d.globCount .GS_ISSUED_SUPPLY = 0 ∧ d.globCount .GS_MAX_SUPPLY = 0 ∧
       d.globCount .GS_REJECT_LIST_URL = 0 ∧
       d.globCount .GS_LINKED_FROM_CONTRACT = 0 ∧
       d.globCount .GS_LINKED_TO_CONTRACT = 1 ∧
       d.assetIn.length = 0 ∧ d.inflIn.length = 0 ∧ d.linkIn = 1 ∧
       d.assetOut.length = 0 ∧ d.inflOut.length = 0 ∧ d.linkOut = 0) := by
  simp [structuralOk, roleOk, findOcc, linkTransition, metaSlots, globalSlots,
        ownedSlots, Occurrences.check, TransitionData.inCount,
        TransitionData.outCount, List.find?, and_assoc]

/-- C7: the Link transition declares exactly one `linkRight` input
(`Once`), no output assignment slots at all, and exactly one
`linkedToContract` global (`Once`); data violating any of these
cardinalities is rejected at the structural stage. -/
theorem link_schema_cardinalities :
    linkTransition.transition_schema.inputs =
      [(OwnedSlot.OS_LINK, Occurrences.Once)] ∧
    linkTransition.transition_schema.assignments = [] ∧
    linkTransition.transition_schema.globals =
      [(GlobalSlot.GS_LINKED_TO_CONTRACT, Occurrences.Once)] ∧
    ∀ d : TransitionData,
      (d.linkIn ≠ 1 ∨ d.assetOut.length ≠ 0 ∨ d.inflOut.length ≠ 0 ∨
       d.linkOut ≠ 0 ∨ d.globCount .GS_LINKED_TO_CONTRACT ≠ 1) →
      runTransition linkTransition d = .error .Structural := by
  refine ⟨rfl, rfl, rfl, ?_⟩
  intro d hviol
  have hs : structuralOk linkTransition.transition_schema d = false := by
    cases h : structuralOk linkTransition.transition_schema d
    · rfl
    · obtain ⟨_, _, _, _, _, _, _, h8, _, _, h11, h12, h13, h14⟩ :=
        (structuralOk_link_iff d).mp h
      rcases hviol with hv | hv | hv | hv | hv
      exacts [absurd h11 hv, absurd h12 hv, absurd h13 hv,
              absurd h14 hv, absurd h8 hv]
  simp [runTransition, hs]

/-- Witness for C7: Link data with two link-right inputs (and otherwise
well-formed slots) is rejected structurally. -/
theorem link_schema_cardinalities_witness :
    runTransition linkTransition
      { metaCount := fun _ => 0,
        globCount := fun s => if s = .GS_LINKED_TO_CONTRACT then 1 else 0,
        issuedSupply := 0, maxSupply := 0, allowedInflation := 0,
        assetIn := [], inflIn := [], linkIn := 2,
        assetOut := [], inflOut := [], linkOut := 0 } = .error .Structural :=
  link_schema_cardinalities.2.2.2 _ (Or.inl (by decide))

/-- C9: `SchemaWrapper::with` for `IfaWrapper` panics (modelled as
`none`) exactly when the supplied contract data's schema id differs
from `IFA_SCHEMA_ID`, and returns the data wrapped unchanged when the
ids are equal. -/
theorem ifa_wrapper_with_spec (d : ContractData) :
    (IfaWrapper.with d = none ↔ d.schemaId ≠ IFA_SCHEMA_ID) ∧
    (d.schemaId = IFA_SCHEMA_ID → IfaWrapper.with d = some ⟨d⟩) := by
  constructor
  · unfold IfaWrapper.with
    by_cases h : d.schemaId = IFA_SCHEMA_ID <;> simp [h]
  · intro h
    simp [IfaWrapper.with, h]

/-- Witness for C9: data carrying `IFA_SCHEMA_ID` is wrapped as is. -/
theorem ifa_wrapper_with_spec_witness :
    IfaWrapper.with ⟨IFA_SCHEMA_ID, [], []⟩ =
      some ⟨⟨IFA_SCHEMA_ID, [], []⟩⟩ :=
  (ifa_wrapper_with_spec ⟨IFA_SCHEMA_ID, [], []⟩).2 rfl

/-- C10: `link_to` (resp. `link_from`) returns `Ok(None)` when the
`linkedToContract` (resp. `linkedFromContract`) global has no values,
`Ok(Some v)` when it has exactly the value `v`, and
`Err(MultipleValues)` when it has more than one value. -/
theorem link_globals_spec (w : IfaWrapper) :
    (w.data.linkedToContract = [] → w.link_to = .ok none) ∧
    (∀ v, w.data.linkedToContract = [v] → w.link_to = .ok (some v)) ∧
    (∀ v u rest, w.data.linkedToContract = v :: u :: rest →
      w.link_to = .error .MultipleValues) ∧
    (w.data.linkedFromContract = [] → w.link_from = .ok none) ∧
    (∀ v, w.data.linkedFromContract = [v] → w.link_from = .ok (some v)) ∧
    (∀ v u rest, w.data.linkedFromContract = v :: u :: rest →
      w.link_from = .error .MultipleValues) := by
  refine ⟨?_, ?_, ?_, ?_, ?_, ?_⟩
  · intro h; unfold IfaWrapper.link_to; rw [h]; rfl
  · intro v h; unfold IfaWrapper.link_to; rw [h]; rfl
  · intro v u rest h; unfold IfaWrapper.link_to; rw [h]; rfl
  · intro h; unfold IfaWrapper.link_from; rw [h]; rfl
  · intro v h; unfold IfaWrapper.link_from; rw [h]; rfl
  · intro v u rest h; unfold IfaWrapper.link_from; rw [h]; rfl

/-- Witness for C10: a wrapper whose `linkedToContract` global holds
exactly `[7]` and whose `linkedFromContract` global holds `[1, 2]`. -/
theorem link_globals_spec_witness :
    IfaWrapper.link_to ⟨⟨IFA_SCHEMA_ID, [7], [1, 2]⟩⟩ = .ok (some 7) ∧
    IfaWrapper.link_from ⟨⟨IFA_SCHEMA_ID, [7], [1, 2]⟩⟩ =
      .error .MultipleValues :=
  ⟨(link_globals_spec ⟨⟨IFA_SCHEMA_ID, [7], [1, 2]⟩⟩).2.1 7 rfl,
   (link_globals_spec ⟨⟨IFA_SCHEMA_ID, [7], [1, 2]⟩⟩).2.2.2.2.2 1 2 [] rfl⟩

end Ifa
